import Mathlib

/-!
Shallow embedding of the GrustnoPy client SDK (src/grustnopy: core.py,
errors.py, types.py).

Python is dynamically typed; JSON values flowing through the client are
modelled by the inductive `Json`.  A server response body, once parsed by
`.json()`, is modelled by `Envelope` (the `{ "err": [ints], "data": ... }`
shape; `Option` marks an absent key).  Python runtime failures raised while
indexing into the response are modelled by `PyErr` through `Except`.

Each client method is embedded as a pure function from the client state,
the method's arguments and the (already parsed) server response(s) to the
HTTP request(s) it issues, the resulting client state and the value it
returns.  One behaviour of the source is preserved faithfully and is load
bearing below: `_validate_result` is an `async def`, and every call site in
core.py invokes it as `self._validate_result(result)` without `await`, so
the coroutine is created and discarded and the validator body never runs
inside any operation.  The embeddings of the operations therefore do not
consult `_validate_result`; the function itself is embedded separately.
-/

/-- A JSON value, as produced by `response.json()` in core.py. -/
inductive Json where
  | null : Json
  | str : String → Json
  | int : Int → Json
  | arr : List Json → Json
  | obj : List (String × Json) → Json

/-- Python runtime errors that the embedded code paths can raise. -/
inductive PyErr where
  | keyError (key : String)
  | typeError
  | attributeError (name : String)
deriving DecidableEq

/-- `dict[key]` on a JSON value: `KeyError` when the key is absent,
`TypeError` when the value is not a dict. -/
def Json.getItem (j : Json) (key : String) : Except PyErr Json :=
  match j with
  | .obj kvs =>
    match kvs.lookup key with
    | some v => Except.ok v
    | none => Except.error (PyErr.keyError key)
  | _ => Except.error PyErr.typeError

/-- The parsed response body `{ "err": [ints], "data": ... }`.
`err = none` models the `"err"` key being absent, `data = none` the
`"data"` key being absent. -/
structure Envelope where
  err : Option (List Int)
  data : Option Json

/-- `result["data"][key]`: first the `"data"` item of the envelope, then
an item of that value. -/
def Envelope.dataItem (resp : Envelope) (key : String) : Except PyErr Json :=
  match resp.data with
  | none => Except.error (PyErr.keyError "data")
  | some j => j.getItem key

/-- The typed errors of errors.py.  `UnknownError` is raised as
`UnknownError(json.dumps(result, indent=4))`, i.e. it carries (a
serialization of) the full raw envelope; it is modelled as carrying the
envelope value itself. -/
inductive ApiError where
  | emailExists
  | loginExists
  | userNotFound
  | badCredentials
  | unknown (raw : Envelope)

/-- An HTTP request as built by core.py.  `body` is the dict passed to
`json.dumps(...)` for the `data=` keyword (`none` when no body is sent);
header values are JSON values because the `access-token` header carries
`self._token`, which is whatever the server previously returned (`none`
models the initial `_token = None`). -/
structure HttpRequest where
  method : String
  url : String
  headers : List (String × Option Json)
  body : Option (List (String × Json))

/-- The three headers every request carries. -/
def baseHeaders : List (String × Option Json) :=
  [("accept", some (Json.str "application/json")),
   ("content-type", some (Json.str "application/x-www-form-urlencoded")),
   ("user-agent", some (Json.str "Python SDK"))]

/-- The `GrustnogramClient` instance state: the single `_token` field,
initially `None`. -/
structure GrustnogramClient where
  _token : Option Json

/-- Headers of an authenticated request: the base headers plus the
`access-token` header carrying the current `self._token`. -/
def authHeaders (self : GrustnogramClient) : List (String × Option Json) :=
  baseHeaders ++ [("access-token", self._token)]

/-- The body of `_validate_result` (core.py lines 37-54): the outcome of
running the validator on a parsed response.  `none` means the function
returns normally, `some e` that it raises `e`. -/
def GrustnogramClient._validate_result (result : Envelope) : Option ApiError :=
  match result.err with
  | none => none
  | some errs =>
    if errs = [] then none
    else if 100 ∈ errs then some ApiError.emailExists
    else if 101 ∈ errs then some ApiError.loginExists
    else if 102 ∈ errs then some ApiError.userNotFound
    else if 103 ∈ errs then some ApiError.badCredentials
    else if errs.any (fun e => e != 0) then some (ApiError.unknown result)
    else none

/-- `login` (core.py lines 56-77): issues `POST /sessions`; the call to
`self._validate_result(result)` on line 75 is not awaited, so the
validator never runs here; then `self._token = result["data"]["access_token"]`
and `return True`. -/
def GrustnogramClient.login (self : GrustnogramClient) (login password : String)
    (resp : Envelope) :
    HttpRequest × Except PyErr (GrustnogramClient × Bool) :=
  ({ method := "POST"
     url := "https://api.grustnogram.ru/sessions"
     headers := baseHeaders
     body := some [("email", Json.str login), ("password", Json.str password)] },
   match resp.dataItem "access_token" with
   | Except.error e => Except.error e
   | Except.ok tok => Except.ok ({ self with _token := some tok }, true))

/-- `register` (core.py lines 79-159): three POST requests; the
`_validate_result` calls on lines 116, 136 and 156 are not awaited, so
the only aborts are the `KeyError`s of `result["data"]["phone_key"]`
(line 118) and `result["data"]["access_token"]` (line 158).  Returns the
list of requests actually issued and the outcome. -/
def GrustnogramClient.register (self : GrustnogramClient)
    (nickname email password phone : String) (code_handler : Unit → String)
    (resp1 _resp2 resp3 : Envelope) :
    List HttpRequest × Except PyErr (GrustnogramClient × Bool) :=
  let req1 : HttpRequest :=
    { method := "POST"
      url := "https://api.grustnogram.ru/users"
      headers := baseHeaders
      body := some [("nickname", Json.str nickname), ("email", Json.str email),
                    ("password", Json.str password),
                    ("password_confirm", Json.str password)] }
  match resp1.dataItem "phone_key" with
  | Except.error e => ([req1], Except.error e)
  | Except.ok phone_key =>
    let req2 : HttpRequest :=
      { method := "POST"
        url := "https://api.grustnogram.ru/callme"
        headers := baseHeaders
        body := some [("phone_key", phone_key), ("phone", Json.str phone)] }
    let code := code_handler ()
    let req3 : HttpRequest :=
      { method := "POST"
        url := "https://api.grustnogram.ru/phoneactivate"
        headers := baseHeaders
        body := some [("code", Json.str code), ("phone", Json.str phone)] }
    ([req1, req2, req3],
     match resp3.dataItem "access_token" with
     | Except.error e => Except.error e
     | Except.ok tok => Except.ok ({ self with _token := some tok }, true))

/-- `like_post` (core.py lines 161-179): `POST /posts/{post_id}/like` with
the `access-token` header; validation not awaited; returns `True`. -/
def GrustnogramClient.like_post (self : GrustnogramClient) (post_id : Int)
    (_resp : Envelope) : HttpRequest × GrustnogramClient × Bool :=
  ({ method := "POST"
     url := "https://api.grustnogram.ru/posts/" ++ toString post_id ++ "/like"
     headers := authHeaders self
     body := none },
   self, true)

/-- `dislike_post` (core.py lines 181-199): `DELETE /posts/{post_id}/like`. -/
def GrustnogramClient.dislike_post (self : GrustnogramClient) (post_id : Int)
    (_resp : Envelope) : HttpRequest × GrustnogramClient × Bool :=
  ({ method := "DELETE"
     url := "https://api.grustnogram.ru/posts/" ++ toString post_id ++ "/like"
     headers := authHeaders self
     body := none },
   self, true)

/-- `like_comment` (core.py lines 201-219): `POST /comments/{comment_id}/like`. -/
def GrustnogramClient.like_comment (self : GrustnogramClient) (comment_id : Int)
    (_resp : Envelope) : HttpRequest × GrustnogramClient × Bool :=
  ({ method := "POST"
     url := "https://api.grustnogram.ru/comments/" ++ toString comment_id ++ "/like"
     headers := authHeaders self
     body := none },
   self, true)

/-- `dislike_comment` (core.py lines 221-239): `DELETE /comments/{comment_id}/like`. -/
def GrustnogramClient.dislike_comment (self : GrustnogramClient) (comment_id : Int)
    (_resp : Envelope) : HttpRequest × GrustnogramClient × Bool :=
  ({ method := "DELETE"
     url := "https://api.grustnogram.ru/comments/" ++ toString comment_id ++ "/like"
     headers := authHeaders self
     body := none },
   self, true)

/-- What an entity convenience method asks the client to perform
(types.py delegates `await self._client.<operation>(self.uid, ...)`). -/
inductive ClientCall where
  | delete_comment (comment_id : Json)
  | like_comment (comment_id : Json)
  | dislike_comment (comment_id : Json)
  | delete_post (post_id : Json)
  | like_post (post_id : Json)
  | dislike_post (post_id : Json)
  | comment_post (post_id : Json) (text : String)

/-- The `Comment` dataclass (types.py lines 16-33).  Its `__init__` takes
exactly the four declared fields; the fields hold whatever JSON values the
call sites in core.py pass in.  `_client` is not a dataclass field: it is
an instance attribute the methods read (`self._client`), modelled by
`_client`, which no construction site of the repository ever sets
(`none` = attribute absent, so reading it raises `AttributeError`). -/
structure Comment where
  uid : Json
  nickname : Json
  comment : Json
  created_at : Json
  _client : Option Unit

/-- `Comment.delete` (types.py lines 23-25): `await
self._client.delete_comment(self.uid)`. -/
def Comment.delete (self : Comment) : Except PyErr ClientCall :=
  match self._client with
  | none => Except.error (PyErr.attributeError "_client")
  | some _ => Except.ok (ClientCall.delete_comment self.uid)

/-- `Comment.like` (types.py lines 27-29): `await
self._client.like_comment(self.uid)`. -/
def Comment.like (self : Comment) : Except PyErr ClientCall :=
  match self._client with
  | none => Except.error (PyErr.attributeError "_client")
  | some _ => Except.ok (ClientCall.like_comment self.uid)

/-- `Comment.dislike` (types.py lines 31-33): `await
self._client.dislike_comment(self.uid)`. -/
def Comment.dislike (self : Comment) : Except PyErr ClientCall :=
  match self._client with
  | none => Except.error (PyErr.attributeError "_client")
  | some _ => Except.ok (ClientCall.dislike_comment self.uid)

/-- The `Post` dataclass (types.py lines 36-61); not constructed anywhere
in core.py, so `_client` is likewise never set on it. -/
structure Post where
  uid : Json
  url : Json
  media : Json
  text : Json
  user : Json
  likes_count : Json
  comments_count : Json
  created_at : Json
  _client : Option Unit

/-- `Post.delete` (types.py lines 47-49). -/
def Post.delete (self : Post) : Except PyErr ClientCall :=
  match self._client with
  | none => Except.error (PyErr.attributeError "_client")
  | some _ => Except.ok (ClientCall.delete_post self.uid)

/-- `Post.like` (types.py lines 51-53). -/
def Post.like (self : Post) : Except PyErr ClientCall :=
  match self._client with
  | none => Except.error (PyErr.attributeError "_client")
  | some _ => Except.ok (ClientCall.like_post self.uid)

/-- `Post.dislike` (types.py lines 55-57). -/
def Post.dislike (self : Post) : Except PyErr ClientCall :=
  match self._client with
  | none => Except.error (PyErr.attributeError "_client")
  | some _ => Except.ok (ClientCall.dislike_post self.uid)

/-- `Post.comment` (types.py lines 59-61). -/
def Post.comment (self : Post) (text : String) : Except PyErr ClientCall :=
  match self._client with
  | none => Except.error (PyErr.attributeError "_client")
  | some _ => Except.ok (ClientCall.comment_post self.uid text)

/-- `comment_post` (core.py lines 241-266): `POST /posts/{post_id}/comments`
with body `{"comment": comment}`; validation not awaited; builds
`Comment(result["data"]["id"], result["data"]["nickname"],
result["data"]["comment"], result["data"]["created_at"])` (no `_client`
is set on it). -/
def GrustnogramClient.comment_post (self : GrustnogramClient) (post_id : Int)
    (comment : String) (resp : Envelope) :
    HttpRequest × GrustnogramClient × Except PyErr Comment :=
  ({ method := "POST"
     url := "https://api.grustnogram.ru/posts/" ++ toString post_id ++ "/comments"
     headers := authHeaders self
     body := some [("comment", Json.str comment)] },
   self,
   do
     let i ← resp.dataItem "id"
     let nick ← resp.dataItem "nickname"
     let text ← resp.dataItem "comment"
     let ts ← resp.dataItem "created_at"
     Except.ok ⟨i, nick, text, ts, none⟩)

/-- `delete_comment` (core.py lines 268-287):
`DELETE /posts/comment/{comment_id}`; validation not awaited; returns `True`. -/
def GrustnogramClient.delete_comment (self : GrustnogramClient) (comment_id : Int)
    (_resp : Envelope) : HttpRequest × GrustnogramClient × Bool :=
  ({ method := "DELETE"
     url := "https://api.grustnogram.ru/posts/comment/" ++ toString comment_id
     headers := authHeaders self
     body := none },
   self, true)

/-- One step of the comprehension in `get_comments` (core.py lines 313-321):
`Comment(comment["id"], comment["nickname"], comment["comment"],
comment["created_at"])` for one element of `result["data"]`. -/
def commentOfJson (j : Json) : Except PyErr Comment := do
  let i ← j.getItem "id"
  let nick ← j.getItem "nickname"
  let text ← j.getItem "comment"
  let ts ← j.getItem "created_at"
  Except.ok ⟨i, nick, text, ts, none⟩

/-- The whole comprehension: maps `commentOfJson` over the elements of the
`data` array, propagating the first Python error. -/
def commentsOfJson : List Json → Except PyErr (List Comment)
  | [] => Except.ok []
  | j :: rest => do
    let c ← commentOfJson j
    let cs ← commentsOfJson rest
    Except.ok (c :: cs)

/-- `get_comments` (core.py lines 289-321): `GET /posts/{post_id}/comments`
with body `{"limit": limit, "offset": offset}`; validation not awaited;
iterates over `result["data"]` (`KeyError` when absent, `TypeError` when it
is not a list) building one `Comment` per element, in order. -/
def GrustnogramClient.get_comments (self : GrustnogramClient) (post_id : Int)
    (limit offset : Int) (resp : Envelope) :
    HttpRequest × GrustnogramClient × Except PyErr (List Comment) :=
  ({ method := "GET"
     url := "https://api.grustnogram.ru/posts/" ++ toString post_id ++ "/comments"
     headers := authHeaders self
     body := some [("limit", Json.int limit), ("offset", Json.int offset)] },
   self,
   match resp.data with
   | none => Except.error (PyErr.keyError "data")
   | some (Json.arr items) => commentsOfJson items
   | some _ => Except.error PyErr.typeError)

/-- `text` as placed in the complaint body: `json.dumps` renders Python
`None` as JSON `null`. -/
def jsonOfOptionalText : Option String → Json
  | none => Json.null
  | some s => Json.str s

/-- `complaint` (core.py lines 323-352): `POST /posts/{post_id}/complaint`
with body `{"type": complaint_type, "text": text}` (default `text=None`);
validation not awaited; returns `True`. -/
def GrustnogramClient.complaint (self : GrustnogramClient) (post_id : Int)
    (complaint_type : Int) (text : Option String) (_resp : Envelope) :
    HttpRequest × GrustnogramClient × Bool :=
  ({ method := "POST"
     url := "https://api.grustnogram.ru/posts/" ++ toString post_id ++ "/complaint"
     headers := authHeaders self
     body := some [("type", Json.int complaint_type),
                   ("text", jsonOfOptionalText text)] },
   self, true)

/-- `delete_post` (core.py lines 354-375): `DELETE /posts/{post_id}`;
validation not awaited; returns `True`. -/
def GrustnogramClient.delete_post (self : GrustnogramClient) (post_id : Int)
    (_resp : Envelope) : HttpRequest × GrustnogramClient × Bool :=
  ({ method := "DELETE"
     url := "https://api.grustnogram.ru/posts/" ++ toString post_id
     headers := authHeaders self
     body := none },
   self, true)

/-- C1: whenever the err list contains one of 100/101/102/103, the
validator raises the typed error of the first match in the fixed priority
order EmailExists (100), LoginExists (101), UserNotFound (102),
BadCredentials (103); and whenever the err list is non-empty, contains
none of those four codes and contains some nonzero code, it raises the
generic Unknown error carrying the full raw envelope. -/
theorem validate_result_priority (resp : Envelope) (errs : List Int)
    (h : resp.err = some errs) :
    (100 ∈ errs →
      GrustnogramClient._validate_result resp = some ApiError.emailExists) ∧
    (100 ∉ errs → 101 ∈ errs →
      GrustnogramClient._validate_result resp = some ApiError.loginExists) ∧
    (100 ∉ errs → 101 ∉ errs → 102 ∈ errs →
      GrustnogramClient._validate_result resp = some ApiError.userNotFound) ∧
    (100 ∉ errs → 101 ∉ errs → 102 ∉ errs → 103 ∈ errs →
      GrustnogramClient._validate_result resp = some ApiError.badCredentials) ∧
    (errs ≠ [] → 100 ∉ errs → 101 ∉ errs → 102 ∉ errs → 103 ∉ errs →
      (∃ e ∈ errs, e ≠ 0) →
      GrustnogramClient._validate_result resp = some (ApiError.unknown resp)) := by
  obtain ⟨e, d⟩ := resp
  simp only [Envelope.err] at h
  subst h
  refine ⟨?_, ?_, ?_, ?_, ?_⟩
  · intro h100
    have hne : errs ≠ [] := by rintro rfl; simp at h100
    simp [GrustnogramClient._validate_result, hne, h100]
  · intro h100 h101
    have hne : errs ≠ [] := by rintro rfl; simp at h101
    simp [GrustnogramClient._validate_result, hne, h100, h101]
  · intro h100 h101 h102
    have hne : errs ≠ [] := by rintro rfl; simp at h102
    simp [GrustnogramClient._validate_result, hne, h100, h101, h102]
  · intro h100 h101 h102 h103
    have hne : errs ≠ [] := by rintro rfl; simp at h103
    simp [GrustnogramClient._validate_result, hne, h100, h101, h102, h103]
  · intro hne h100 h101 h102 h103 hnz
    have hany : errs.any (fun e => e != 0) = true := by
      simpa [List.any_eq_true, bne_iff_ne] using hnz
    simp [GrustnogramClient._validate_result, hne, h100, h101, h102, h103, hany]

/-- Witness for C1 at a concrete envelope containing both 100 and 103. -/
theorem validate_result_priority_spot :
    (100 : Int) ∈ ([100, 103] : List Int) ∧
    GrustnogramClient._validate_result { err := some [100, 103], data := none } =
      some ApiError.emailExists :=
  ⟨by decide,
   (validate_result_priority { err := some [100, 103], data := none }
     [100, 103] rfl).1 (by decide)⟩

/-- C2: when the err list is empty or the err key absent, the validator
returns without raising, and the caller (`login`) proceeds to extract the
`data` field: whenever `result["data"]["access_token"]` is present, the
call stores it and returns `True`. -/
theorem validate_result_success (resp : Envelope)
    (h : resp.err = none ∨ resp.err = some []) :
    GrustnogramClient._validate_result resp = none ∧
    ∀ (st : GrustnogramClient) (l p : String) (tok : Json),
      resp.dataItem "access_token" = Except.ok tok →
      (st.login l p resp).2 = Except.ok ({ st with _token := some tok }, true) := by
  constructor
  · obtain ⟨e, d⟩ := resp
    simp only [Envelope.err] at h
    rcases h with h | h <;> subst h <;>
      simp [GrustnogramClient._validate_result]
  · intro st l p tok htok
    simp [GrustnogramClient.login, htok]

/-- Witness for C2 at a concrete successful envelope. -/
theorem validate_result_success_spot :
    GrustnogramClient._validate_result
      { err := some [], data := some (Json.obj [("access_token", Json.str "t")]) } =
      none ∧
    ((GrustnogramClient.mk none).login "a" "b"
      { err := some [], data := some (Json.obj [("access_token", Json.str "t")]) }).2 =
      Except.ok (GrustnogramClient.mk (some (Json.str "t")), true) := by
  have h := validate_result_success
    { err := some [], data := some (Json.obj [("access_token", Json.str "t")]) }
    (Or.inr rfl)
  exact ⟨h.1, h.2 (GrustnogramClient.mk none) "a" "b" (Json.str "t") rfl⟩

/-- C10: a non-empty err list all of whose elements are zero makes the
validator return without raising: such a response is treated as success. -/
theorem validate_result_all_zero (errs : List Int) (d : Option Json)
    (hne : errs ≠ []) (hz : ∀ e ∈ errs, e = 0) :
    GrustnogramClient._validate_result { err := some errs, data := d } = none := by
  have h100 : (100 : Int) ∉ errs := fun hm => by have := hz _ hm; norm_num at this
  have h101 : (101 : Int) ∉ errs := fun hm => by have := hz _ hm; norm_num at this
  have h102 : (102 : Int) ∉ errs := fun hm => by have := hz _ hm; norm_num at this
  have h103 : (103 : Int) ∉ errs := fun hm => by have := hz _ hm; norm_num at this
  have hany : errs.any (fun e => e != 0) = false := by
    simp only [List.any_eq_false, bne_iff_ne, ne_eq, not_not]
    exact hz
  simp [GrustnogramClient._validate_result, hne, h100, h101, h102, h103, hany]

/-- Witness for C10 at the concrete err list `[0]`. -/
theorem validate_result_all_zero_spot :
    ([(0 : Int)] ≠ ([] : List Int)) ∧
    GrustnogramClient._validate_result { err := some [0], data := none } = none :=
  ⟨by decide, validate_result_all_zero [0] none (by decide) (by decide)⟩

/-- C3: core.py line 75 calls `self._validate_result(result)` without
`await`, so the async validator body never executes inside `login`.  On a
response reporting code 103 (resp. 102) the validator, run on its own,
would raise BadCredentials (resp. UserNotFound), but `login` instead
proceeds, stores `data["access_token"]` and returns `True`. -/
theorem login_missing_await_bug :
    GrustnogramClient._validate_result
      { err := some [103],
        data := some (Json.obj [("access_token", Json.str "tok")]) } =
      some ApiError.badCredentials ∧
    ((GrustnogramClient.mk none).login "user" "pass"
      { err := some [103],
        data := some (Json.obj [("access_token", Json.str "tok")]) }).2 =
      Except.ok (GrustnogramClient.mk (some (Json.str "tok")), true) ∧
    GrustnogramClient._validate_result
      { err := some [102],
        data := some (Json.obj [("access_token", Json.str "tok")]) } =
      some ApiError.userNotFound ∧
    ((GrustnogramClient.mk none).login "user" "pass"
      { err := some [102],
        data := some (Json.obj [("access_token", Json.str "tok")]) }).2 =
      Except.ok (GrustnogramClient.mk (some (Json.str "tok")), true) :=
  ⟨rfl, rfl, rfl, rfl⟩

/-- C4: login("alice", "secret") against
`{"err":[],"data":{"access_token":"tok-abc"}}` sets the client token to
`"tok-abc"` and returns success, and a subsequent `like_post 42` issues
`POST /posts/42/like` carrying the header `access-token: tok-abc`. -/
theorem login_then_like_post_scenario :
    ∃ st : GrustnogramClient,
      ((GrustnogramClient.mk none).login "alice" "secret"
        { err := some [],
          data := some (Json.obj [("access_token", Json.str "tok-abc")]) }).2 =
        Except.ok (st, true) ∧
      st._token = some (Json.str "tok-abc") ∧
      (st.like_post 42 { err := some [], data := none }).1.method = "POST" ∧
      (st.like_post 42 { err := some [], data := none }).1.url =
        "https://api.grustnogram.ru/posts/42/like" ∧
      ("access-token", some (Json.str "tok-abc")) ∈
        (st.like_post 42 { err := some [], data := none }).1.headers := by
  refine ⟨GrustnogramClient.mk (some (Json.str "tok-abc")), rfl, rfl, rfl, rfl, ?_⟩
  simp [GrustnogramClient.like_post, authHeaders, baseHeaders]

/-- The JSON object of one comment, carrying exactly the four entries
`get_comments` reads, with arbitrary JSON values. -/
def commentObj (q : Json × Json × Json × Json) : Json :=
  Json.obj [("id", q.1), ("nickname", q.2.1),
            ("comment", q.2.2.1), ("created_at", q.2.2.2)]

/-- The `Comment` that the field-for-field mapping must produce from
`commentObj q`. -/
def commentVal (q : Json × Json × Json × Json) : Comment :=
  ⟨q.1, q.2.1, q.2.2.1, q.2.2.2, none⟩

theorem commentOfJson_commentObj (q : Json × Json × Json × Json) :
    commentOfJson (commentObj q) = Except.ok (commentVal q) := rfl

theorem commentsOfJson_map (qs : List (Json × Json × Json × Json)) :
    commentsOfJson (qs.map commentObj) = Except.ok (qs.map commentVal) := by
  induction qs with
  | nil => rfl
  | cons q rest ih =>
    simp only [List.map_cons, commentsOfJson, commentOfJson_commentObj, ih]
    rfl

/-- C5: a successful `get_comments` whose `data` field is a list of n
comment objects returns exactly n `Comment` values, in the server's
order, each field taken field-for-field from the object's `id`,
`nickname`, `comment` and `created_at` entries. -/
theorem get_comments_maps_fields (st : GrustnogramClient)
    (post_id limit offset : Int) (qs : List (Json × Json × Json × Json)) :
    (st.get_comments post_id limit offset
      { err := some [], data := some (Json.arr (qs.map commentObj)) }).2.2 =
      Except.ok (qs.map commentVal) ∧
    (qs.map commentVal).length = qs.length := by
  refine ⟨?_, by simp⟩
  simpa [GrustnogramClient.get_comments] using commentsOfJson_map qs

/-- C6: every operation other than `login` and `register` leaves the
session token field `_token` unchanged: after any such call the client's
token equals its value before the call. -/
theorem token_written_only_by_login_register (st : GrustnogramClient)
    (post_id comment_id limit offset complaint_type : Int)
    (text : Option String) (ctext : String) (resp : Envelope) :
    (st.like_post post_id resp).2.1._token = st._token ∧
    (st.dislike_post post_id resp).2.1._token = st._token ∧
    (st.like_comment comment_id resp).2.1._token = st._token ∧
    (st.dislike_comment comment_id resp).2.1._token = st._token ∧
    (st.comment_post post_id ctext resp).2.1._token = st._token ∧
    (st.delete_comment comment_id resp).2.1._token = st._token ∧
    (st.get_comments post_id limit offset resp).2.1._token = st._token ∧
    (st.complaint post_id complaint_type text resp).2.1._token = st._token ∧
    (st.delete_post post_id resp).2.1._token = st._token :=
  ⟨rfl, rfl, rfl, rfl, rfl, rfl, rfl, rfl, rfl⟩

/-- C7: when the code-provider callback returns `"1234"` and the first
step yields a phone key, the third request of the register flow is
`POST /phoneactivate` and its body carries the literal `"1234"` as its
`code` field. -/
theorem register_code_field (st : GrustnogramClient)
    (nickname email password phone : String) (ch : Unit → String)
    (hcode : ch () = "1234") (resp1 resp2 resp3 : Envelope) (pk : Json)
    (hpk : resp1.dataItem "phone_key" = Except.ok pk) :
    ∃ r3 : HttpRequest,
      ((st.register nickname email password phone ch resp1 resp2 resp3).1).get? 2 =
        some r3 ∧
      r3.method = "POST" ∧
      r3.url = "https://api.grustnogram.ru/phoneactivate" ∧
      r3.body = some [("code", Json.str "1234"), ("phone", Json.str phone)] := by
  refine ⟨{ method := "POST"
            url := "https://api.grustnogram.ru/phoneactivate"
            headers := baseHeaders
            body := some [("code", Json.str (ch ())), ("phone", Json.str phone)] },
          ?_, rfl, rfl, ?_⟩
  · simp [GrustnogramClient.register, hpk]
  · simp [hcode]

/-- Witness for C7 at concrete inputs, with the code provider returning
`"1234"` and a first response carrying a phone key. -/
theorem register_code_field_spot :
    ∃ r3 : HttpRequest,
      (((GrustnogramClient.mk none).register "nick" "mail" "pw" "7900" (fun _ => "1234")
        { err := some [], data := some (Json.obj [("phone_key", Json.str "pk")]) }
        { err := some [], data := none }
        { err := some [], data := none }).1).get? 2 = some r3 ∧
      r3.method = "POST" ∧
      r3.url = "https://api.grustnogram.ru/phoneactivate" ∧
      r3.body = some [("code", Json.str "1234"), ("phone", Json.str "7900")] :=
  register_code_field (GrustnogramClient.mk none) "nick" "mail" "pw" "7900"
    (fun _ => "1234") rfl
    { err := some [], data := some (Json.obj [("phone_key", Json.str "pk")]) }
    { err := some [], data := none }
    { err := some [], data := none }
    (Json.str "pk") rfl

/-- C8: `complaint(post_id, 2)` with no text supplied sends
`POST /posts/{post_id}/complaint` whose body carries the literal type
value 2 and a null `text` field. -/
theorem complaint_default_text (st : GrustnogramClient) (post_id : Int)
    (resp : Envelope) :
    (st.complaint post_id 2 none resp).1.method = "POST" ∧
    (st.complaint post_id 2 none resp).1.url =
      "https://api.grustnogram.ru/posts/" ++ toString post_id ++ "/complaint" ∧
    (st.complaint post_id 2 none resp).1.body =
      some [("type", Json.int 2), ("text", Json.null)] :=
  ⟨rfl, rfl, rfl⟩

/-- C9: no construction site of the repository ever sets the `_client`
attribute the entity methods read, so on the `Comment` that
`get_comments` actually returns, `delete()` raises
`AttributeError: _client` instead of invoking `delete_comment`; the
method body does delegate `delete_comment(self.uid)` once `_client` is
present. -/
theorem comment_delete_client_attribute_bug :
    ∃ c : Comment,
      ((GrustnogramClient.mk (some (Json.str "t"))).get_comments 1 10 0
        { err := some [],
          data := some (Json.arr [Json.obj
            [("id", Json.int 7), ("nickname", Json.str "n"),
             ("comment", Json.str "hi"), ("created_at", Json.int 0)]]) }).2.2 =
        Except.ok [c] ∧
      c.uid = Json.int 7 ∧
      c.delete = Except.error (PyErr.attributeError "_client") ∧
      Comment.delete { c with _client := some () } =
        Except.ok (ClientCall.delete_comment (Json.int 7)) :=
  ⟨⟨Json.int 7, Json.str "n", Json.str "hi", Json.int 0, none⟩, rfl, rfl, rfl, rfl⟩
